import Mathlib

/-!
Shallow embedding of the booking lifecycle and code-lookup subsystem of the
van-rental repository: the SQL trigger `generate_booking_code`, the public
booking submission flow (`handleSubmit` / `handleLookup` in the storefront
page), and the staff administration flow (`fetchBookings` / `updateStatus`
in `AdminBookings.tsx`), together with the `bookings` table invariants from
the migrations.
-/

namespace Pkcar

/-! ### Booking code generator
`generate_booking_code()` (SQL trigger): loops drawing
`upper(substr(md5(random()::text), 1, 6))` until the candidate is not
already present in `bookings.booking_code`; the column carries a UNIQUE
constraint.  The randomness source is modelled as the stream of md5
digests it yields: every md5 digest is a 32-character lowercase
hexadecimal string. -/

/-- The characters an md5 hex digest is made of. -/
def hexChars : List Char :=
  "0123456789abcdef".data

/-- Uppercase hexadecimal characters: the alphabet of generated codes. -/
def upperHexChars : List Char :=
  "0123456789ABCDEF".data

/-- The uppercase alphanumeric alphabet `[A-Z0-9]` named by the spec. -/
def upperAlnumChars : List Char :=
  "0123456789ABCDEFGHIJKLMNOPQRSTUVWXYZ".data

/-- What it means to be an md5 hex digest: 32 lowercase hex characters. -/
def IsHexDigest (s : String) : Prop :=
  s.data.length = 32 ∧ ∀ c ∈ s.data, c ∈ hexChars

instance (s : String) : Decidable (IsHexDigest s) := by
  unfold IsHexDigest; infer_instance

/-- `upper(substr(d, 1, 6))`: the first six characters of the digest,
upper-cased. -/
def codeOfDigest (d : String) : String :=
  ⟨(d.data.take 6).map Char.toUpper⟩

/-- The retry loop of `generate_booking_code`: draw a digest, form the
candidate, exit when the candidate collides with no stored code.  The
stream of digests is a list (the loop's fuel); `none` means the stream
was exhausted before a fresh code appeared. -/
def genLoop (existing : List String) : List String → Option String
  | [] => none
  | d :: rest =>
      let c := codeOfDigest d
      if c ∈ existing then genLoop existing rest else some c

/-! ### Dates
The storefront uses date-fns `differenceInDays(endDate, startDate)` on
calendar dates (`yyyy-MM-dd`).  For date-only values this is the
difference of day ordinals. -/

/-- A calendar date. -/
structure Date where
  year : Nat
  month : Nat
  day : Nat
deriving DecidableEq, Repr

/-- Gregorian leap-year rule. -/
def isLeap (y : Nat) : Bool :=
  (y % 4 = 0 && y % 100 ≠ 0) || y % 400 = 0

/-- Month lengths of a (leap or common) year. -/
def monthLengths (leap : Bool) : List Nat :=
  [31, if leap then 29 else 28, 31, 30, 31, 30, 31, 31, 30, 31, 30, 31]

/-- Days in the year strictly before month `m`. -/
def daysBeforeMonth (m : Nat) (leap : Bool) : Nat :=
  ((monthLengths leap).take (m - 1)).sum

/-- Days strictly before year `y` (proleptic Gregorian, from year 1). -/
def daysBeforeYear (y : Nat) : Nat :=
  365 * (y - 1) + (y - 1) / 4 - (y - 1) / 100 + (y - 1) / 400

/-- Day ordinal of a date. -/
def toOrdinal (d : Date) : Nat :=
  daysBeforeYear d.year + daysBeforeMonth d.month (isLeap d.year) + d.day

/-- date-fns `differenceInDays(dateLeft, dateRight)` on date-only values. -/
def differenceInDays (dateLeft dateRight : Date) : Int :=
  (toOrdinal dateLeft : Int) - (toOrdinal dateRight : Int)

/-- `const totalPrice = days * selectedVan.price_per_day` with
`days = differenceInDays(endDate, startDate)` (storefront lines 72-73):
the Pricing Calculator. -/
def computeTotal (dailyRate : Int) (startDate endDate : Date) : Int :=
  differenceInDays endDate startDate * dailyRate

/-! ### Data model
`booking_status` enum (base migration plus the `proceed` value added by a
later migration), the `vans` row shape used by the storefront, and the
`bookings` row shape (base migration columns plus `booking_code` and
`pickup_time` from the later migrations). -/

inductive BookingStatus where
  | pending
  | confirmed
  | proceed
  | completed
  | cancelled
deriving DecidableEq, Repr

inductive VanStatus where
  | available
  | maintenance
  | hidden
deriving DecidableEq, Repr

structure Features where
  wifi : Bool
  ac : Bool
  vipSeats : Bool
deriving DecidableEq, Repr

structure Van where
  id : Nat
  name : String
  model : String
  seats : Nat
  pricePerDay : Int
  imageUrl : Option String
  description : Option String
  features : Features
  status : VanStatus
  co2PerKm : Option Int
deriving DecidableEq, Repr

structure Booking where
  id : Nat
  bookingCode : String
  customerName : String
  customerPhone : String
  vanId : Nat
  startDate : Date
  endDate : Date
  pickupLocation : String
  pickupTime : Option String
  totalPrice : Int
  status : BookingStatus
  notes : Option String
  createdAt : Nat
  updatedAt : Nat
deriving DecidableEq, Repr

/-- The booking form state `{ name, phone, pickup, pickupTime, notes }`. -/
structure CreateForm where
  name : String
  phone : String
  pickup : String
  pickupTime : String
  notes : String
deriving DecidableEq, Repr

/-- The error outcomes of the submission flow: the two validation toasts,
and a database-level insert failure. -/
inductive CreateError where
  | invalidPhone
  | invalidDates
  | dbError
deriving DecidableEq, Repr

/-- Whether an error is one of the two input-validation failures. -/
def CreateError.isValidation : CreateError → Bool
  | .invalidPhone => true
  | .invalidDates => true
  | .dbError => false

/-! ### Phone validation and normalization (storefront lines 75, 133, 146) -/

/-- `\d` on a character. -/
def isDigitChar (c : Char) : Bool :=
  '0' ≤ c && c ≤ '9'

/-- The regex `^(0[689]\d{8}|0[2-9]\d{7,8})$`, anchored on the whole
string. -/
def phoneRegexTest (s : String) : Bool :=
  match s.data with
  | '0' :: c :: rest =>
      ((c == '6' || c == '8' || c == '9') && rest.length == 8 && rest.all isDigitChar)
      || (('2' ≤ c && c ≤ '9') && (rest.length == 7 || rest.length == 8)
            && rest.all isDigitChar)
  | _ => false

/-- `phone.replace(/[-\s]/g, "")`: delete every hyphen and whitespace
character. -/
def normalizePhone (s : String) : String :=
  ⟨s.data.filter (fun c => !(c == '-' || c.isWhitespace))⟩

/-! ### Booking creation (`handleSubmit`, storefront lines 129-175)
The flow: normalize the phone and test it against the regex (toast and
return on failure), reject `days < 1` (toast and return), then insert the
row; the BEFORE INSERT trigger assigns the booking code from the digest
stream, and `created_at` / `updated_at` default to `now()`. -/

def create (store : List Booking) (van : Van) (startDate endDate : Date)
    (form : CreateForm) (digests : List String) (newId now : Nat) :
    Except CreateError (Booking × List Booking) :=
  let phone := normalizePhone form.phone
  if !(phoneRegexTest phone) then
    .error .invalidPhone
  else
    let days := differenceInDays endDate startDate
    if days < 1 then
      .error .invalidDates
    else
      match genLoop (store.map (fun b => b.bookingCode)) digests with
      | none => .error .dbError
      | some code =>
          let b : Booking :=
            { id := newId
              bookingCode := code
              customerName := form.name
              customerPhone := phone
              vanId := van.id
              startDate := startDate
              endDate := endDate
              pickupLocation := form.pickup
              pickupTime := if form.pickupTime = "" then none else some form.pickupTime
              totalPrice := days * van.pricePerDay
              status := .pending
              notes := if form.notes = "" then none else some form.notes
              createdAt := now
              updatedAt := now }
          .ok (b, b :: store)

/-- The table contents after a submission: unchanged when the flow
errored, extended by the new row when it succeeded. -/
def storeAfterCreate (store : List Booking) (van : Van) (startDate endDate : Date)
    (form : CreateForm) (digests : List String) (newId now : Nat) : List Booking :=
  match create store van startDate endDate form digests newId now with
  | .error _ => store
  | .ok (_, store') => store'

/-! ### Lookup by code (`handleLookup`, storefront lines 111-127)
Empty (after trim) input returns early; otherwise the query selects the
booking whose `booking_code` equals `lookupCode.trim().toUpperCase()`,
joined with `vans(name, model, image_url)`. -/

/-- JavaScript `String.prototype.trim`. -/
def jsTrim (s : String) : String :=
  ⟨((s.data.dropWhile Char.isWhitespace).reverse.dropWhile Char.isWhitespace).reverse⟩

/-- JavaScript `String.prototype.toUpperCase` (ASCII fragment). -/
def jsToUpper (s : String) : String :=
  ⟨s.data.map Char.toUpper⟩

/-- The `vans(name, model, image_url)` projection of the join. -/
structure VanSummary where
  name : String
  model : String
  imageUrl : Option String
deriving DecidableEq, Repr

def findByCode (store : List Booking) (vans : List Van) (input : String) :
    Option (Booking × Option VanSummary) :=
  if jsTrim input = "" then none
  else
    match store.find? (fun b => decide (b.bookingCode = jsToUpper (jsTrim input))) with
    | none => none
    | some b =>
        some (b, (vans.find? (fun v => decide (v.id = b.vanId))).map
          (fun v => { name := v.name, model := v.model, imageUrl := v.imageUrl }))

/-! ### Administration (`AdminBookings.tsx`)
`updateStatus` issues `update({ status }).eq("id", id)` — an unconditional
write of the status column on the matching row; the
`update_bookings_updated_at` trigger refreshes `updated_at`.
`fetchBookings` selects `*, vans(name, model)` ordered by `created_at`
descending, adding `eq("status", filter)` unless the filter is `"all"`;
the filter is modelled as `Option BookingStatus` with `none` for
`"all"`. -/

def updateStatus (store : List Booking) (id : Nat) (status : BookingStatus)
    (now : Nat) : List Booking :=
  store.map (fun b =>
    if b.id = id then { b with status := status, updatedAt := now } else b)

/-- `created_at` descending: the row ordering of `fetchBookings`. -/
def recentFirst (a b : Booking) : Prop :=
  b.createdAt ≤ a.createdAt

instance : DecidableRel recentFirst :=
  fun a b => Nat.decLe b.createdAt a.createdAt

instance : IsTotal Booking recentFirst :=
  ⟨fun a b => Nat.le_total b.createdAt a.createdAt⟩

instance : IsTrans Booking recentFirst :=
  ⟨fun _ _ _ h1 h2 => Nat.le_trans h2 h1⟩

def fetchBookings (store : List Booking) (filter : Option BookingStatus) :
    List Booking :=
  let ordered := List.insertionSort recentFirst store
  match filter with
  | none => ordered
  | some f => ordered.filter (fun b => decide (b.status = f))

/-! ### Concrete sample inputs used by the witnesses -/

/-- A 32-character lowercase hex digest. -/
def digSample : String := "abcdef0123456789abcdef0123456789"

/-- The `City Cruiser` sample van of the seed data (daily rate 1800). -/
def vanSample : Van :=
  { id := 1
    name := "City Cruiser"
    model := "Hyundai H-1 Premium 2023"
    seats := 9
    pricePerDay := 1800
    imageUrl := some "https://images.unsplash.com/photo-1555215695-3004980ad54e?w=800&q=80"
    description := none
    features := { wifi := false, ac := true, vipSeats := false }
    status := .available
    co2PerKm := none }

def dJun10 : Date := ⟨2025, 6, 10⟩
def dJun11 : Date := ⟨2025, 6, 11⟩
def dJun13 : Date := ⟨2025, 6, 13⟩

def formSample : CreateForm :=
  { name := "Somchai Jaidee"
    phone := "0891234567"
    pickup := "Suvarnabhumi Airport"
    pickupTime := ""
    notes := "" }

/-- The booking the sample submission produces. -/
def bookingSample : Booking :=
  { id := 7
    bookingCode := "ABCDEF"
    customerName := "Somchai Jaidee"
    customerPhone := "0891234567"
    vanId := 1
    startDate := dJun10
    endDate := dJun13
    pickupLocation := "Suvarnabhumi Airport"
    pickupTime := none
    totalPrice := 5400
    status := .pending
    notes := none
    createdAt := 100
    updatedAt := 100 }

/-! ## Helper lemmas -/

theorem toUpper_hex_mem : ∀ c ∈ hexChars, c.toUpper ∈ upperHexChars := by decide

theorem upperHex_sub_alnum : ∀ c ∈ upperHexChars, c ∈ upperAlnumChars := by decide

theorem toLower_upperHex_mem : ∀ c ∈ upperHexChars, c.toLower ∈ hexChars := by decide

theorem toUpper_toLower_id : ∀ c ∈ upperHexChars, (c.toLower).toUpper = c := by decide

theorem codeOfDigest_length {d : String} (hd : IsHexDigest d) :
    (codeOfDigest d).data.length = 6 := by
  simp [codeOfDigest, List.length_take, hd.1]

theorem codeOfDigest_chars {d : String} (hd : IsHexDigest d) :
    ∀ c ∈ (codeOfDigest d).data, c ∈ upperHexChars := by
  intro c hc
  simp only [codeOfDigest, List.mem_map] at hc
  obtain ⟨c', hc', rfl⟩ := hc
  exact toUpper_hex_mem c' (hd.2 c' (List.take_subset 6 d.data hc'))

theorem genLoop_eq_some {existing : List String} {digests : List String} {c : String}
    (h : genLoop existing digests = some c) :
    c ∉ existing ∧ ∃ d ∈ digests, c = codeOfDigest d := by
  induction digests with
  | nil => simp [genLoop] at h
  | cons d rest ih =>
    unfold genLoop at h
    by_cases hmem : codeOfDigest d ∈ existing
    · simp only [hmem, if_true] at h
      obtain ⟨h1, d', hd', hc⟩ := ih h
      exact ⟨h1, d', List.mem_cons_of_mem d hd', hc⟩
    · simp only [hmem, if_false, Option.some.injEq] at h
      exact ⟨h ▸ hmem, d, List.mem_cons_self d rest, h.symm⟩

theorem create_ok_elim {store : List Booking} {van : Van} {s e : Date}
    {form : CreateForm} {digests : List String} {newId now : Nat}
    {b : Booking} {store' : List Booking}
    (h : create store van s e form digests newId now = .ok (b, store')) :
    phoneRegexTest (normalizePhone form.phone) = true ∧
    1 ≤ differenceInDays e s ∧
    genLoop (store.map fun x => x.bookingCode) digests = some b.bookingCode ∧
    b.customerPhone = normalizePhone form.phone ∧
    b.totalPrice = differenceInDays e s * van.pricePerDay ∧
    b.status = .pending ∧ b.startDate = s ∧ b.endDate = e ∧
    b.customerName = form.name ∧ b.vanId = van.id ∧
    b.pickupLocation = form.pickup ∧
    store' = b :: store := by
  unfold create at h
  by_cases hp : phoneRegexTest (normalizePhone form.phone)
  · simp only [hp, Bool.not_true, Bool.false_eq_true, if_false] at h
    by_cases hd : differenceInDays e s < 1
    · simp [hd] at h
    · simp only [hd, if_false] at h
      cases hg : genLoop (store.map fun x => x.bookingCode) digests with
      | none => rw [hg] at h; simp at h
      | some code =>
        rw [hg] at h
        simp only [Except.ok.injEq, Prod.mk.injEq] at h
        obtain ⟨hb, hst⟩ := h
        subst hb
        exact ⟨hp, Int.not_lt.mp hd, rfl, rfl, rfl, rfl, rfl, rfl, rfl, rfl, rfl,
          hst.symm⟩
  · simp [hp] at h

theorem create_ok_intro (store : List Booking) (van : Van) (s e : Date)
    (form : CreateForm) (digests : List String) (newId now : Nat) {c : String}
    (hp : phoneRegexTest (normalizePhone form.phone) = true)
    (hd : 1 ≤ differenceInDays e s)
    (hg : genLoop (store.map fun x => x.bookingCode) digests = some c) :
    ∃ b store', create store van s e form digests newId now = .ok (b, store') ∧
      b.startDate = s ∧ b.endDate = e ∧ b.bookingCode = c ∧ store' = b :: store := by
  have hcr : create store van s e form digests newId now =
      .ok (⟨newId, c, form.name, normalizePhone form.phone, van.id, s, e, form.pickup,
              if form.pickupTime = "" then none else some form.pickupTime,
              differenceInDays e s * van.pricePerDay, .pending,
              if form.notes = "" then none else some form.notes, now, now⟩,
            ⟨newId, c, form.name, normalizePhone form.phone, van.id, s, e, form.pickup,
              if form.pickupTime = "" then none else some form.pickupTime,
              differenceInDays e s * van.pricePerDay, .pending,
              if form.notes = "" then none else some form.notes, now, now⟩ :: store) := by
    unfold create
    simp only [hp, Bool.not_true, Bool.false_eq_true, if_false]
    rw [if_neg (Int.not_lt.mpr hd), hg]
  exact ⟨_, _, hcr, rfl, rfl, rfl, rfl⟩

theorem create_phone_err (store : List Booking) (van : Van) (s e : Date)
    (form : CreateForm) (digests : List String) (newId now : Nat)
    (hp : phoneRegexTest (normalizePhone form.phone) = false) :
    create store van s e form digests newId now = .error .invalidPhone := by
  unfold create
  simp [hp]

theorem create_dates_err (store : List Booking) (van : Van) (s e : Date)
    (form : CreateForm) (digests : List String) (newId now : Nat)
    (hp : phoneRegexTest (normalizePhone form.phone) = true)
    (hd : differenceInDays e s < 1) :
    create store van s e form digests newId now = .error .invalidDates := by
  unfold create
  simp [hp, hd]

theorem create_not_phone_err (store : List Booking) (van : Van) (s e : Date)
    (form : CreateForm) (digests : List String) (newId now : Nat)
    (hp : phoneRegexTest (normalizePhone form.phone) = true) :
    create store van s e form digests newId now ≠ .error .invalidPhone := by
  unfold create
  simp only [hp, Bool.not_true, Bool.false_eq_true, if_false]
  by_cases hd : differenceInDays e s < 1
  · simp [hd]
  · simp only [hd, if_false]
    cases genLoop (store.map fun x => x.bookingCode) digests <;> simp

theorem storeAfterCreate_of_error {store : List Booking} {van : Van} {s e : Date}
    {form : CreateForm} {digests : List String} {newId now : Nat} {err : CreateError}
    (h : create store van s e form digests newId now = .error err) :
    storeAfterCreate store van s e form digests newId now = store := by
  unfold storeAfterCreate
  rw [h]

theorem find_key_eq {α β : Type} [DecidableEq β] (key : α → β) (l : List α)
    (a : α) (k : β) (hnd : (l.map key).Nodup) (ha : a ∈ l) (hk : key a = k) :
    l.find? (fun x => decide (key x = k)) = some a := by
  induction l with
  | nil => cases ha
  | cons h t ih =>
    rw [List.map_cons, List.nodup_cons] at hnd
    rcases List.mem_cons.mp ha with rfl | hat
    · rw [List.find?_cons_of_pos _ (by simp [hk])]
    · have hne : key h ≠ k := by
        intro he
        exact hnd.1 (he ▸ hk ▸ List.mem_map_of_mem key hat)
      rw [List.find?_cons_of_neg _ (by simp [hne])]
      exact ih hnd.2 hat

theorem jsToUpper_empty : jsToUpper "" = "" := rfl

theorem findByCode_found {store : List Booking} {vans : List Van} {input : String}
    {b : Booking} {v : Van}
    (hnd : (store.map fun x => x.bookingCode).Nodup)
    (hb : b ∈ store)
    (hup : jsToUpper (jsTrim input) = b.bookingCode)
    (hne : b.bookingCode ≠ "")
    (hvnd : (vans.map fun x => x.id).Nodup)
    (hv : v ∈ vans)
    (hvid : v.id = b.vanId) :
    findByCode store vans input
      = some (b, some { name := v.name, model := v.model, imageUrl := v.imageUrl }) := by
  unfold findByCode
  have htrim : jsTrim input ≠ "" := by
    intro he
    rw [he, jsToUpper_empty] at hup
    exact hne hup.symm
  have h1 : store.find? (fun x => decide (x.bookingCode = jsToUpper (jsTrim input)))
      = some b :=
    find_key_eq (fun x => x.bookingCode) store b _ hnd hb hup.symm
  have h2 : vans.find? (fun x => decide (x.id = b.vanId)) = some v :=
    find_key_eq (fun x => x.id) vans v _ hvnd hv hvid
  rw [if_neg htrim, h1]
  simp [h2]

theorem findByCode_notFound {store : List Booking} {vans : List Van} {input : String}
    (h : ∀ b ∈ store, b.bookingCode ≠ jsToUpper (jsTrim input)) :
    findByCode store vans input = none := by
  unfold findByCode
  by_cases htrim : jsTrim input = ""
  · rw [if_pos htrim]
  · rw [if_neg htrim]
    rw [List.find?_eq_none.mpr (by intro b hb; simpa using h b hb)]

theorem updateStatus_mem (st : BookingStatus) (now : Nat) {store : List Booking}
    {id : Nat} {b : Booking} (hb : b ∈ store) (hid : b.id = id) :
    { b with status := st, updatedAt := now } ∈ updateStatus store id st now := by
  unfold updateStatus
  exact List.mem_map.mpr ⟨b, hb, by simp [hid]⟩

theorem updateStatus_frame {store : List Booking} {id : Nat} {st : BookingStatus}
    {now : Nat} {b' : Booking} (h : b' ∈ updateStatus store id st now) :
    ∃ b ∈ store, b'.id = b.id ∧ b'.bookingCode = b.bookingCode ∧
      b'.customerName = b.customerName ∧ b'.customerPhone = b.customerPhone ∧
      b'.vanId = b.vanId ∧ b'.startDate = b.startDate ∧ b'.endDate = b.endDate ∧
      b'.pickupLocation = b.pickupLocation ∧ b'.pickupTime = b.pickupTime ∧
      b'.totalPrice = b.totalPrice ∧ b'.notes = b.notes ∧
      b'.createdAt = b.createdAt := by
  unfold updateStatus at h
  obtain ⟨b, hb, hbu⟩ := List.mem_map.mp h
  refine ⟨b, hb, ?_⟩
  by_cases hid : b.id = id
  · rw [if_pos hid] at hbu
    subst hbu
    exact ⟨rfl, rfl, rfl, rfl, rfl, rfl, rfl, rfl, rfl, rfl, rfl, rfl⟩
  · rw [if_neg hid] at hbu
    subst hbu
    exact ⟨rfl, rfl, rfl, rfl, rfl, rfl, rfl, rfl, rfl, rfl, rfl, rfl⟩

theorem updateStatus_idem (store : List Booking) (id : Nat) (st : BookingStatus)
    (now now' : Nat) :
    updateStatus (updateStatus store id st now) id st now'
      = updateStatus store id st now' := by
  unfold updateStatus
  rw [List.map_map]
  refine List.map_congr_left ?_
  intro b _
  by_cases hid : b.id = id
  · simp [hid]
  · simp [hid]

theorem fetchBookings_mem_some {store : List Booking} {f : BookingStatus}
    {b : Booking} :
    b ∈ fetchBookings store (some f) ↔ b ∈ store ∧ b.status = f := by
  unfold fetchBookings
  simp [List.mem_filter, List.mem_insertionSort]

theorem fetchBookings_all_perm (store : List Booking) :
    (fetchBookings store none).Perm store := by
  unfold fetchBookings
  exact List.perm_insertionSort recentFirst store

theorem fetchBookings_sorted (store : List Booking) (filter : Option BookingStatus) :
    (fetchBookings store filter).Sorted recentFirst := by
  unfold fetchBookings
  cases filter with
  | none => exact List.sorted_insertionSort recentFirst store
  | some f => exact (List.sorted_insertionSort recentFirst store).filter _

/-! ## Claim theorems -/

/-- C1: every generated booking code has length 6 with every character in
[A-Z0-9], and no two bookings ever hold the same code: the trigger loops,
drawing a fresh candidate and retrying, until the candidate does not
collide with any stored code, so a successful creation stores a code
distinct from every existing one and keeps the stored codes
duplicate-free. -/
theorem C1_code_length_charset_unique :
    ∀ (store : List Booking) (van : Van) (s e : Date) (form : CreateForm)
      (digests : List String) (newId now : Nat) (b : Booking) (store' : List Booking),
      (∀ d ∈ digests, IsHexDigest d) →
      (store.map fun x => x.bookingCode).Nodup →
      create store van s e form digests newId now = .ok (b, store') →
      b.bookingCode.data.length = 6 ∧
      (∀ c ∈ b.bookingCode.data, c ∈ upperAlnumChars) ∧
      b.bookingCode ∉ store.map (fun x => x.bookingCode) ∧
      (store'.map fun x => x.bookingCode).Nodup := by
  intro store van s e form digests newId now b store' hdig hnd hcr
  obtain ⟨-, -, hg, -, -, -, -, -, -, -, -, hst⟩ := create_ok_elim hcr
  obtain ⟨hnotin, d, hd, hcode⟩ := genLoop_eq_some hg
  have hdg := hdig d hd
  refine ⟨?_, ?_, hnotin, ?_⟩
  · rw [hcode]
    exact codeOfDigest_length hdg
  · intro c hc
    rw [hcode] at hc
    exact upperHex_sub_alnum c (codeOfDigest_chars hdg c hc)
  · rw [hst, List.map_cons]
    exact List.nodup_cons.mpr ⟨hnotin, hnd⟩

theorem C1_code_length_charset_unique_witness :
    bookingSample.bookingCode.data.length = 6 ∧
    (∀ c ∈ bookingSample.bookingCode.data, c ∈ upperAlnumChars) ∧
    bookingSample.bookingCode ∉ ([] : List Booking).map (fun x => x.bookingCode) ∧
    (([bookingSample] : List Booking).map fun x => x.bookingCode).Nodup :=
  C1_code_length_charset_unique [] vanSample dJun10 dJun13 formSample [digSample]
    7 100 bookingSample [bookingSample] (by decide) (by decide) rfl

/-- C2 (counterexample): the claim that every 6-character string over
[A-Z0-9] is a possible generator output is false at the concrete input
"GGGGGG": it is such a string, yet no digest stream of the randomness
source makes the loop produce it, because md5 digests only contain
hexadecimal characters. -/
theorem C2_counterexample :
    ("GGGGGG".data.length = 6 ∧ ∀ c ∈ "GGGGGG".data, c ∈ upperAlnumChars) ∧
    ∀ (existing digests : List String),
      (∀ d ∈ digests, IsHexDigest d) →
      genLoop existing digests ≠ some "GGGGGG" := by
  refine ⟨by decide, ?_⟩
  intro existing digests hdig h
  obtain ⟨-, d, hd, hcode⟩ := genLoop_eq_some h
  have hg : ('G' : Char) ∈ upperHexChars :=
    codeOfDigest_chars (hdig d hd) 'G' (hcode ▸ (by decide : 'G' ∈ "GGGGGG".data))
  exact absurd hg (by decide)

/-- C2 (amended): the generator's candidate space is the set of
6-character uppercase hexadecimal strings (alphabet 0-9 and A-F, 16^6
combinations): for every 6-character string over that alphabet some value
of the randomness source makes the loop produce it. -/
theorem C2_amended_hex_space :
    ∀ s : String, s.data.length = 6 → (∀ c ∈ s.data, c ∈ upperHexChars) →
      ∃ d : String, IsHexDigest d ∧ genLoop [] [d] = some s := by
  intro s hlen hchars
  refine ⟨⟨s.data.map Char.toLower ++ List.replicate 26 '0'⟩, ⟨?_, ?_⟩, ?_⟩
  · simp [hlen]
  · intro c hc
    rcases List.mem_append.mp hc with hc | hc
    · obtain ⟨c', hc', rfl⟩ := List.mem_map.mp hc
      exact toLower_upperHex_mem c' (hchars c' hc')
    · rw [List.eq_of_mem_replicate hc]
      decide
  · unfold genLoop
    rw [if_neg (List.not_mem_nil _)]
    congr 1
    unfold codeOfDigest
    have h6 : (s.data.map Char.toLower).length = 6 := by simp [hlen]
    show (⟨((s.data.map Char.toLower ++ List.replicate 26 '0').take 6).map Char.toUpper⟩ : String) = s
    rw [List.take_left' h6, List.map_map]
    have hmap : s.data.map (Char.toUpper ∘ Char.toLower) = s.data :=
      (List.map_congr_left fun c hc => toUpper_toLower_id c (hchars c hc)).trans
        (List.map_id s.data)
    rw [hmap]

theorem C2_amended_hex_space_witness :
    ∃ d : String, IsHexDigest d ∧ genLoop [] [d] = some "A1B2C3" :=
  C2_amended_hex_space "A1B2C3" (by decide) (by decide)

/-- C3: the Pricing Calculator is a pure function of its arguments: every
successful creation stores `totalPrice = dailyRate × differenceInDays(end,
start)` with the whole-day duration at least 1, and
`computeTotal 1800 (2025-06-10) (2025-06-13) = 5400`. -/
theorem C3_pricing_total :
    (∀ (store : List Booking) (van : Van) (s e : Date) (form : CreateForm)
       (digests : List String) (newId now : Nat) (b : Booking) (store' : List Booking),
       create store van s e form digests newId now = .ok (b, store') →
       b.totalPrice = computeTotal van.pricePerDay s e ∧ 1 ≤ differenceInDays e s) ∧
    computeTotal 1800 dJun10 dJun13 = 5400 := by
  constructor
  · intro store van s e form digests newId now b store' hcr
    obtain ⟨-, hd, -, -, htp, -⟩ := create_ok_elim hcr
    exact ⟨htp, hd⟩
  · decide

theorem C3_pricing_total_witness :
    bookingSample.totalPrice = computeTotal vanSample.pricePerDay dJun10 dJun13 ∧
    1 ≤ differenceInDays dJun13 dJun10 :=
  C3_pricing_total.1 [] vanSample dJun10 dJun13 formSample [digSample] 7 100
    bookingSample [bookingSample] rfl

/-- C4: a create request whose whole-day duration is below 1 fails with a
validation error and leaves the store unchanged, while a request whose end
date is exactly one day after its start date (with a valid phone and an
available fresh code) succeeds and stores a booking of duration 1 day. -/
theorem C4_date_validation :
    (∀ (store : List Booking) (van : Van) (s e : Date) (form : CreateForm)
       (digests : List String) (newId now : Nat),
       differenceInDays e s < 1 →
       (∃ err, create store van s e form digests newId now = .error err ∧
          err.isValidation = true) ∧
       storeAfterCreate store van s e form digests newId now = store) ∧
    (∀ (store : List Booking) (van : Van) (s e : Date) (form : CreateForm)
       (digests : List String) (newId now : Nat) (c : String),
       phoneRegexTest (normalizePhone form.phone) = true →
       differenceInDays e s = 1 →
       genLoop (store.map fun x => x.bookingCode) digests = some c →
       ∃ b store', create store van s e form digests newId now = .ok (b, store') ∧
         b.startDate = s ∧ b.endDate = e ∧
         differenceInDays b.endDate b.startDate = 1 ∧ store' = b :: store) := by
  constructor
  · intro store van s e form digests newId now hd
    by_cases hp : phoneRegexTest (normalizePhone form.phone) = true
    · have h := create_dates_err store van s e form digests newId now hp hd
      exact ⟨⟨.invalidDates, h, rfl⟩, storeAfterCreate_of_error h⟩
    · have hp' : phoneRegexTest (normalizePhone form.phone) = false := by
        simpa using hp
      have h := create_phone_err store van s e form digests newId now hp'
      exact ⟨⟨.invalidPhone, h, rfl⟩, storeAfterCreate_of_error h⟩
  · intro store van s e form digests newId now c hp hd1 hg
    obtain ⟨b, store', hcr, hs, he, hcode, hst⟩ :=
      create_ok_intro store van s e form digests newId now hp (by omega) hg
    exact ⟨b, store', hcr, hs, he, by rw [he, hs, hd1], hst⟩

theorem C4_date_validation_witness :
    ((∃ err, create [] vanSample dJun10 dJun10 formSample [digSample] 7 100
        = .error err ∧ err.isValidation = true) ∧
      storeAfterCreate [] vanSample dJun10 dJun10 formSample [digSample] 7 100 = []) ∧
    (∃ b store', create [] vanSample dJun10 dJun11 formSample [digSample] 7 100
        = .ok (b, store') ∧
      b.startDate = dJun10 ∧ b.endDate = dJun11 ∧
      differenceInDays b.endDate b.startDate = 1 ∧ store' = b :: []) :=
  ⟨C4_date_validation.1 [] vanSample dJun10 dJun10 formSample [digSample] 7 100
      (by decide),
   C4_date_validation.2 [] vanSample dJun10 dJun11 formSample [digSample] 7 100
      "ABCDEF" (by decide) (by decide) (by decide)⟩

/-- C5: the create flow validates the normalized customer phone against
the regional pattern and fails with the phone validation error exactly
when the normalized phone does not match; "0891234567" matches the
pattern while "12345" does not. -/
theorem C5_phone_validation :
    (∀ (store : List Booking) (van : Van) (s e : Date) (form : CreateForm)
       (digests : List String) (newId now : Nat),
       phoneRegexTest (normalizePhone form.phone) = false →
       create store van s e form digests newId now = .error .invalidPhone ∧
       storeAfterCreate store van s e form digests newId now = store) ∧
    (∀ (store : List Booking) (van : Van) (s e : Date) (form : CreateForm)
       (digests : List String) (newId now : Nat),
       phoneRegexTest (normalizePhone form.phone) = true →
       create store van s e form digests newId now ≠ .error .invalidPhone) ∧
    phoneRegexTest (normalizePhone "0891234567") = true ∧
    phoneRegexTest (normalizePhone "12345") = false := by
  refine ⟨?_, ?_, by decide, by decide⟩
  · intro store van s e form digests newId now hp
    have h := create_phone_err store van s e form digests newId now hp
    exact ⟨h, storeAfterCreate_of_error h⟩
  · intro store van s e form digests newId now hp
    exact create_not_phone_err store van s e form digests newId now hp

theorem C5_phone_validation_witness :
    (create [] vanSample dJun10 dJun13 { formSample with phone := "12345" }
        [digSample] 7 100 = .error .invalidPhone ∧
      storeAfterCreate [] vanSample dJun10 dJun13 { formSample with phone := "12345" }
        [digSample] 7 100 = []) ∧
    create [] vanSample dJun10 dJun13 formSample [digSample] 7 100
      ≠ .error .invalidPhone :=
  ⟨C5_phone_validation.1 [] vanSample dJun10 dJun13
      { formSample with phone := "12345" } [digSample] 7 100 (by decide),
   C5_phone_validation.2.1 [] vanSample dJun10 dJun13 formSample [digSample] 7 100
      (by decide)⟩

/-- C6: lookup round-trip: for a stored booking, `findByCode` on its code
written in any letter case and with surrounding whitespace returns that
booking joined with its van name, model and primary image, because the
input is trimmed and upper-cased before comparison; a code held by no
booking returns none (not found). -/
theorem C6_lookup_roundtrip :
    (∀ (store : List Booking) (vans : List Van) (input : String)
       (b : Booking) (v : Van),
       (store.map fun x => x.bookingCode).Nodup →
       b ∈ store →
       jsToUpper (jsTrim input) = b.bookingCode →
       b.bookingCode ≠ "" →
       (vans.map fun x => x.id).Nodup →
       v ∈ vans →
       v.id = b.vanId →
       findByCode store vans input
         = some (b, some { name := v.name, model := v.model, imageUrl := v.imageUrl })) ∧
    (∀ (store : List Booking) (vans : List Van) (input : String),
       (∀ b ∈ store, b.bookingCode ≠ jsToUpper (jsTrim input)) →
       findByCode store vans input = none) := by
  constructor
  · intro store vans input b v hnd hb hup hne hvnd hv hvid
    exact findByCode_found hnd hb hup hne hvnd hv hvid
  · intro store vans input h
    exact findByCode_notFound h

theorem C6_lookup_roundtrip_witness :
    findByCode [bookingSample] [vanSample] "  abcDef "
      = some (bookingSample, some ⟨vanSample.name, vanSample.model, vanSample.imageUrl⟩) ∧
    findByCode [bookingSample] [vanSample] "ZZZZZZ" = none :=
  ⟨C6_lookup_roundtrip.1 [bookingSample] [vanSample] "  abcDef " bookingSample vanSample
      (by decide) (by decide) (by decide) (by decide) (by decide) (by decide) rfl,
   C6_lookup_roundtrip.2 [bookingSample] [vanSample] "ZZZZZZ" (by decide)⟩

/-- C7: `updateStatus` on a known booking unconditionally sets its status
to the requested value regardless of the current one and never errors on
the transition: repeating `confirmed` on an already-confirmed booking is a
no-op (up to the refreshed update timestamp), and nothing rejects setting
a cancelled booking back to pending. -/
theorem C7_updateStatus_unrestricted :
    (∀ (store : List Booking) (id : Nat) (st : BookingStatus) (now : Nat)
       (b : Booking),
       b ∈ store → b.id = id →
       { b with status := st, updatedAt := now } ∈ updateStatus store id st now) ∧
    (∀ (store : List Booking) (id now now' : Nat),
       updateStatus (updateStatus store id .confirmed now) id .confirmed now'
         = updateStatus store id .confirmed now') ∧
    (∀ (store : List Booking) (id now : Nat) (b : Booking),
       b ∈ store → b.id = id → b.status = .cancelled →
       { b with status := BookingStatus.pending, updatedAt := now }
         ∈ updateStatus store id .pending now) := by
  refine ⟨?_, ?_, ?_⟩
  · intro store id st now b hb hid
    exact updateStatus_mem st now hb hid
  · intro store id now now'
    exact updateStatus_idem store id .confirmed now now'
  · intro store id now b hb hid hcst
    exact updateStatus_mem .pending now hb hid

theorem C7_updateStatus_unrestricted_witness :
    ({ bookingSample with status := BookingStatus.confirmed, updatedAt := 200 }
        ∈ updateStatus [bookingSample] 7 .confirmed 200) ∧
    (updateStatus (updateStatus [bookingSample] 7 .confirmed 200) 7 .confirmed 300
        = updateStatus [bookingSample] 7 .confirmed 300) ∧
    ({ bookingSample with status := BookingStatus.pending, updatedAt := 300 }
        ∈ updateStatus [{ bookingSample with status := BookingStatus.cancelled }]
            7 .pending 300) :=
  ⟨C7_updateStatus_unrestricted.1 [bookingSample] 7 .confirmed 200 bookingSample
      (by decide) rfl,
   C7_updateStatus_unrestricted.2.1 [bookingSample] 7 200 300,
   C7_updateStatus_unrestricted.2.2
      [{ bookingSample with status := BookingStatus.cancelled }] 7 300
      { bookingSample with status := BookingStatus.cancelled } (by decide) rfl rfl⟩

/-- C8: `fetchBookings` returns exactly the bookings whose status equals
the filter (all of them, as a permutation, when the filter is absent /
"all"), ordered by creation time most recent first and without
pagination; a pending booking transitioned to confirmed appears in the
confirmed list and not in the pending list. -/
theorem C8_list_filter_order :
    (∀ (store : List Booking) (f : BookingStatus) (b : Booking),
       b ∈ fetchBookings store (some f) ↔ b ∈ store ∧ b.status = f) ∧
    (∀ store : List Booking, (fetchBookings store none).Perm store) ∧
    (∀ (store : List Booking) (filter : Option BookingStatus),
       (fetchBookings store filter).Sorted recentFirst) ∧
    (∀ (store : List Booking) (id now : Nat) (b : Booking),
       b ∈ store → b.id = id → b.status = .pending →
       ({ b with status := BookingStatus.confirmed, updatedAt := now }
           ∈ fetchBookings (updateStatus store id .confirmed now) (some .confirmed)) ∧
       ({ b with status := BookingStatus.confirmed, updatedAt := now }
           ∉ fetchBookings (updateStatus store id .confirmed now) (some .pending))) := by
  refine ⟨?_, fetchBookings_all_perm, fetchBookings_sorted, ?_⟩
  · intro store f b
    exact fetchBookings_mem_some
  · intro store id now b hb hid hpend
    have hub := updateStatus_mem .confirmed now hb hid
    constructor
    · exact fetchBookings_mem_some.mpr ⟨hub, rfl⟩
    · intro hmem
      exact absurd (fetchBookings_mem_some.mp hmem).2
        (by decide : ¬ (BookingStatus.confirmed = BookingStatus.pending))

theorem C8_list_filter_order_witness :
    (bookingSample ∈ fetchBookings [bookingSample] (some .pending)
        ↔ bookingSample ∈ [bookingSample] ∧ bookingSample.status = .pending) ∧
    (fetchBookings [bookingSample] none).Perm [bookingSample] ∧
    (fetchBookings [bookingSample] (some .confirmed)).Sorted recentFirst ∧
    (({ bookingSample with status := BookingStatus.confirmed, updatedAt := 200 }
        ∈ fetchBookings (updateStatus [bookingSample] 7 .confirmed 200)
            (some .confirmed)) ∧
      ({ bookingSample with status := BookingStatus.confirmed, updatedAt := 200 }
        ∉ fetchBookings (updateStatus [bookingSample] 7 .confirmed 200)
            (some .pending))) :=
  ⟨C8_list_filter_order.1 [bookingSample] .pending bookingSample,
   C8_list_filter_order.2.1 [bookingSample],
   C8_list_filter_order.2.2.1 [bookingSample] (some .confirmed),
   C8_list_filter_order.2.2.2 [bookingSample] 7 200 bookingSample (by decide) rfl rfl⟩

/-- C9: the stored total price is a creation-time snapshot: `updateStatus`
changes only the status (and the update timestamp); every booking in the
updated store corresponds to a stored booking with identical code, dates,
customer fields, pickup fields, notes, total price and vehicle
reference — the total price is never recomputed. -/
theorem C9_updateStatus_frame :
    ∀ (store : List Booking) (id : Nat) (st : BookingStatus) (now : Nat)
      (b' : Booking),
      b' ∈ updateStatus store id st now →
      ∃ b ∈ store, b'.id = b.id ∧ b'.bookingCode = b.bookingCode ∧
        b'.customerName = b.customerName ∧ b'.customerPhone = b.customerPhone ∧
        b'.vanId = b.vanId ∧ b'.startDate = b.startDate ∧ b'.endDate = b.endDate ∧
        b'.pickupLocation = b.pickupLocation ∧ b'.pickupTime = b.pickupTime ∧
        b'.totalPrice = b.totalPrice ∧ b'.notes = b.notes ∧
        b'.createdAt = b.createdAt := by
  intro store id st now b' h
  exact updateStatus_frame h

theorem C9_updateStatus_frame_witness :
    ∃ b ∈ [bookingSample],
      ({ bookingSample with status := BookingStatus.confirmed, updatedAt := 200 } : Booking).id = b.id ∧
      ({ bookingSample with status := BookingStatus.confirmed, updatedAt := 200 } : Booking).bookingCode = b.bookingCode ∧
      ({ bookingSample with status := BookingStatus.confirmed, updatedAt := 200 } : Booking).customerName = b.customerName ∧
      ({ bookingSample with status := BookingStatus.confirmed, updatedAt := 200 } : Booking).customerPhone = b.customerPhone ∧
      ({ bookingSample with status := BookingStatus.confirmed, updatedAt := 200 } : Booking).vanId = b.vanId ∧
      ({ bookingSample with status := BookingStatus.confirmed, updatedAt := 200 } : Booking).startDate = b.startDate ∧
      ({ bookingSample with status := BookingStatus.confirmed, updatedAt := 200 } : Booking).endDate = b.endDate ∧
      ({ bookingSample with status := BookingStatus.confirmed, updatedAt := 200 } : Booking).pickupLocation = b.pickupLocation ∧
      ({ bookingSample with status := BookingStatus.confirmed, updatedAt := 200 } : Booking).pickupTime = b.pickupTime ∧
      ({ bookingSample with status := BookingStatus.confirmed, updatedAt := 200 } : Booking).totalPrice = b.totalPrice ∧
      ({ bookingSample with status := BookingStatus.confirmed, updatedAt := 200 } : Booking).notes = b.notes ∧
      ({ bookingSample with status := BookingStatus.confirmed, updatedAt := 200 } : Booking).createdAt = b.createdAt :=
  C9_updateStatus_frame [bookingSample] 7 .confirmed 200
    { bookingSample with status := BookingStatus.confirmed, updatedAt := 200 }
    (by decide)

/-- C10: create deletes every hyphen and whitespace character from the
customer phone before both the pattern validation and persistence: the
persisted customerPhone is the normalized string; "089-123 4567"
normalizes to "0891234567", passes validation, and the created booking
stores "0891234567", never the raw input. -/
theorem C10_phone_normalized :
    (∀ (store : List Booking) (van : Van) (s e : Date) (form : CreateForm)
       (digests : List String) (newId now : Nat) (b : Booking) (store' : List Booking),
       create store van s e form digests newId now = .ok (b, store') →
       b.customerPhone = normalizePhone form.phone) ∧
    normalizePhone "089-123 4567" = "0891234567" ∧
    phoneRegexTest (normalizePhone "089-123 4567") = true ∧
    create [] vanSample dJun10 dJun13 { formSample with phone := "089-123 4567" }
      [digSample] 7 100 = .ok (bookingSample, [bookingSample]) := by
  refine ⟨?_, by decide, by decide, rfl⟩
  intro store van s e form digests newId now b store' hcr
  exact (create_ok_elim hcr).2.2.2.1

theorem C10_phone_normalized_witness :
    bookingSample.customerPhone = normalizePhone "089-123 4567" :=
  C10_phone_normalized.1 [] vanSample dJun10 dJun13
    { formSample with phone := "089-123 4567" } [digSample] 7 100 bookingSample
    [bookingSample] rfl

end Pkcar
